import Mathlib

/-!
# Verification of the vlille-app feed aggregation and caching component

Shallow embedding of `apps/api/src/index.ts`: the GBFS discovery / feed
fetch, the status-keyed left join, the 60-second TTL cache, and the
`/stations` route's threshold filter.

Modelling conventions:
* JavaScript numbers that the claims exercise are integers; the one place
  where NaN matters (the `Number(req.query.min ?? 0)` conversion of the
  `min` query parameter) is modelled by the `JsNum` type, whose `nan`
  constructor makes every `>=` comparison false, as in JavaScript.
  Coordinates are modelled as rationals (they are only ever copied).
* The raw JSON payloads are cast, not validated, in the source
  (`as StationStatus[]`), so a record may lack `num_bikes_available` at
  runtime even though the TypeScript type requires it; the route's filter
  `(s.bikes ?? 0)` accounts for this.  Those fields are therefore
  `Option Int` here and `?? 0` is `Option.getD 0`.
* Upstream I/O is a pure `World`: the result of fetching and parsing the
  discovery document, and the result of fetching and parsing each feed by
  URL.  A failed `fetch`/`.json()`/shape access is an `Except.error`.
* Each run returns, besides its result and the updated module state
  (`cache`, `cacheDate`), a `FetchCount` of upstream HTTP calls performed,
  so that claims about "no upstream I/O" and fetch coalescing are statable.
* Within a single call the wall clock is modelled as the constant `w.now`
  (none of the claims distinguish the check-time and write-time readings
  of `Date.now()`).
-/

namespace VLille

/-- The `StationInformation` record of the information feed
(`apps/api/src/index.ts`, `type StationInformation`). -/
structure StationInformation where
  station_id : String
  name : String
  lat : Rat
  lon : Rat
  address : Option String
deriving DecidableEq, Repr

/-- The `StationStatus` record of the status feed
(`apps/api/src/index.ts`, `type StationStatus`).  The counts are optional
because the runtime payload is cast, not validated. -/
structure StationStatus where
  station_id : String
  num_bikes_available : Option Int
  num_docks_available : Option Int
deriving DecidableEq, Repr

/-- The merged station object built inside `fetchStations`. -/
structure MergedStation where
  id : String
  name : Option String
  lat : Option Rat
  lon : Option Rat
  bikes : Option Int
  docks : Option Int
  address : Option String
deriving DecidableEq, Repr

/-- One entry of `root.data.en.feeds`. -/
structure Feed where
  name : String
  url : String
deriving DecidableEq, Repr

/-- The discovery document, reduced to the one field the code reads:
`root.data.en.feeds`. -/
structure Discovery where
  feeds : List Feed
deriving DecidableEq, Repr

/-- Failure modes of a refresh.  In the source all three surface as a
thrown exception (a rejected `fetch`, a failed `.json()`, or the
`TypeError` raised by `infoFeed!.url` when `find` returned `undefined`);
the constructors record which step threw. -/
inductive FetchErr where
  | discoveryError
  | feedNotFound
  | fetchError
deriving DecidableEq, Repr

/-- Count of upstream HTTP calls performed by a run. -/
structure FetchCount where
  discoveryCalls : Nat
  feedCalls : Nat
deriving DecidableEq, Repr

/-- The module-level mutable state of `apps/api/src/index.ts`:
`let cache: any = null` (`none` models `null`; an array, even empty, is
truthy) and `let cacheDate = 0`. -/
structure CacheState where
  cache : Option (List MergedStation)
  cacheDate : Int
deriving DecidableEq, Repr

/-- The environment of one call: the current clock and the outcomes of
the upstream fetch-and-parse steps, keyed by URL for the two feeds. -/
structure World where
  now : Int
  discovery : Except Unit Discovery
  infoFeedAt : String → Except Unit (List StationInformation)
  statusFeedAt : String → Except Unit (List StationStatus)

/-- The constant `const CACHE_MS = 60_000`. -/
def CACHE_MS : Int := 60000

/-- Lookup in `infoById = new Map(info.data.stations.map(s => [s.station_id, s]))`:
a JavaScript `Map` built from a pair list lets the later pair win on a
duplicate key, so `get k` returns the last element with that key. -/
def infoLookup (info : List StationInformation) (k : String) :
    Option StationInformation :=
  (info.filter (fun s => s.station_id == k)).getLast?

/-- The body of `status.data.stations.map(s => ...)`: one merged view per
status record; descriptive fields come from the information lookup
(`i?.name` etc.), counts from the status record. -/
def mergeStation (info : List StationInformation) (s : StationStatus) :
    MergedStation :=
  let i := infoLookup info s.station_id
  { id := s.station_id
    name := i.map (fun x => x.name)
    lat := i.map (fun x => x.lat)
    lon := i.map (fun x => x.lon)
    bikes := s.num_bikes_available
    docks := s.num_docks_available
    address := i.bind (fun x => x.address) }

/-- The join `const merged = status.data.stations.map(s => ...)`. -/
def mergeStations (info : List StationInformation)
    (status : List StationStatus) : List MergedStation :=
  status.map (mergeStation info)

/-- The lookup `feeds.find(f => f.name === n)`. -/
def findFeed (feeds : List Feed) (n : String) : Option Feed :=
  feeds.find? (fun f => f.name == n)

/-- The refresh part of `fetchStations` (everything after the cache
check): fetch the discovery document, locate both named feeds, fetch both
feeds via `Promise.all`, join, then `cache = merged; cacheDate =
Date.now()`.  The `Promise.all` argument's array elements are evaluated
left to right, so the non-null assertions throw in order: if
`station_information` is absent, `infoFeed!.url` throws before any feed
request is issued (`feedCalls = 0`); if only `station_status` is absent,
`fetch(infoFeed!.url)` has already been issued when `statusFeed!.url`
throws (`feedCalls = 1`); once both names resolve, both requests are
issued (`feedCalls = 2`) even when one of them fails.  On any throw the
module state is left untouched. -/
def refresh (w : World) (st : CacheState) :
    Except FetchErr (List MergedStation) × CacheState × FetchCount :=
  match w.discovery with
  | .error _ => (.error .discoveryError, st, ⟨1, 0⟩)
  | .ok root =>
    match findFeed root.feeds "station_information" with
    | none => (.error .feedNotFound, st, ⟨1, 0⟩)
    | some infoFeed =>
      match findFeed root.feeds "station_status" with
      | none => (.error .feedNotFound, st, ⟨1, 1⟩)
      | some statusFeed =>
        match w.infoFeedAt infoFeed.url, w.statusFeedAt statusFeed.url with
        | .ok info, .ok status =>
          let merged := mergeStations info status
          (.ok merged, ⟨some merged, w.now⟩, ⟨1, 2⟩)
        | _, _ => (.error .fetchError, st, ⟨1, 2⟩)

/-- The cache check heading `fetchStations`:
`if (Date.now() - cacheDate < CACHE_MS && cache) return cache;`.
Returns the cached array on a hit, `none` on a miss. -/
def cacheHit (w : World) (st : CacheState) : Option (List MergedStation) :=
  match st.cache with
  | some c => if w.now - st.cacheDate < CACHE_MS then some c else none
  | none => none

/-- The function `async function fetchStations()`: serve the cache when fresh and
populated, otherwise refresh. -/
def fetchStations (w : World) (st : CacheState) :
    Except FetchErr (List MergedStation) × CacheState × FetchCount :=
  match cacheHit w st with
  | some c => (.ok c, st, ⟨0, 0⟩)
  | none => refresh w st

/-- A JavaScript number as produced by `Number(...)`, restricted to the
values the claims exercise: an integer or `NaN`. -/
inductive JsNum where
  | nan
  | num (v : Int)
deriving DecidableEq, Repr

/-- JavaScript `a >= b` with `b` possibly `NaN`: any comparison with
`NaN` is false. -/
def jsGe (a : Int) (b : JsNum) : Bool :=
  match b with
  | .nan => false
  | .num v => decide (v ≤ a)

/-- The filter `stations.filter(s => (s.bikes ?? 0) >= min)`. -/
def filterStations (min : JsNum) (l : List MergedStation) :
    List MergedStation :=
  l.filter (fun s => jsGe (s.bikes.getD 0) min)

/-- The `/stations` route handler.  `minRaw` is the value of
`Number(req.query.min ?? 0)` when the `min` query parameter was supplied
(`Number` of a non-numeric string such as `"abc"` is `NaN`, i.e.
`JsNum.nan`); when it is absent the code computes `Number(0) = 0`.  A
thrown refresh error is caught and answered with a 500 response, modelled
as `Except.error ()`. -/
def stationsRoute (w : World) (st : CacheState) (minRaw : Option JsNum) :
    Except Unit (List MergedStation) × CacheState × FetchCount :=
  let min := minRaw.getD (JsNum.num 0)
  match fetchStations w st with
  | (.ok stations, st2, c) => (.ok (filterStations min stations), st2, c)
  | (.error _, st2, c) => (.error (), st2, c)

/-- Total number of upstream feed HTTP calls made by two concurrent
`fetchStations` calls under the schedule the Node event loop takes when
both requests arrive together: each handler runs synchronously up to its
first `await`, so both execute the cache check against the initial state
before either refresh has written `cache`; a caller that passed the check
then performs its whole refresh (there is no lock or single-flight
primitive in the source).  Call 2's refresh runs against the state call 1
left behind, but its fetches happen regardless, since its check already
happened. -/
def twoConcurrentFeedCalls (w : World) (st : CacheState) : Nat :=
  match cacheHit w st with
  | some _ => 0
  | none =>
    let r1 := refresh w st
    let r2 := refresh w r1.2.1
    r1.2.2.feedCalls + r2.2.2.feedCalls

/-! ## Concrete fixtures -/

/-- A concrete merged station (the "A"/"Gare" record of the spec's
concrete scenario). -/
def stA : MergedStation :=
  { id := "A", name := some "Gare", lat := some ((5063 : Rat)/100),
    lon := some ((307 : Rat)/100), bikes := some 5, docks := some 10,
    address := none }

/-- A populated cache captured at time 0. -/
def st0 : CacheState := ⟨some [stA], 0⟩

/-- The empty cache at process start. -/
def stEmpty : CacheState := ⟨none, 0⟩

/-- A world at the moment the TTL expires, in which every upstream fetch
fails. -/
def wFail : World :=
  { now := 60000, discovery := .error ()
    infoFeedAt := fun _ => .error (), statusFeedAt := fun _ => .error () }

/-- A world at the moment the TTL expires whose discovery document lists
the information feed but not the status feed. -/
def wInfoOnly : World :=
  { now := 60000, discovery := .ok ⟨[⟨"station_information", "u1"⟩]⟩
    infoFeedAt := fun _ => .error (), statusFeedAt := fun _ => .error () }

/-- Information feed of the spec's concrete scenario: one record for
station "A". -/
def infoFix : List StationInformation :=
  [⟨"A", "Gare", (5063 : Rat)/100, (307 : Rat)/100, none⟩]

/-- Status feed of the spec's concrete scenario: "A" with 5 bikes and
"B" (absent from the information feed) with 0 bikes. -/
def statusFix : List StationStatus :=
  [⟨"A", some 5, some 10⟩, ⟨"B", some 0, some 3⟩]

/-- A status feed that repeats the identifier "A". -/
def statusDup : List StationStatus :=
  [⟨"A", some 1, some 2⟩, ⟨"A", some 3, some 4⟩]

/-- A world inside the TTL window (30 s after the snapshot at time 0)
whose upstream all fails: a fresh cache must make that irrelevant. -/
def wIdle : World :=
  { now := 30000, discovery := .error ()
    infoFeedAt := fun _ => .error (), statusFeedAt := fun _ => .error () }

/-- A world at the moment the TTL expires whose discovery document and
both feed fetches succeed, serving the concrete-scenario fixtures. -/
def wOk : World :=
  { now := 60000
    discovery := .ok ⟨[⟨"station_information", "u1"⟩, ⟨"station_status", "u2"⟩]⟩
    infoFeedAt := fun u => if u = "u1" then .ok infoFix else .error ()
    statusFeedAt := fun u => if u = "u2" then .ok statusFix else .error () }

/-! ## Shared lemmas -/

/-- The identifiers of a merged snapshot are exactly those of the status
feed, in order. -/
theorem mergeStations_map_id (info : List StationInformation)
    (status : List StationStatus) :
    (mergeStations info status).map (fun m => m.id) =
      status.map (fun s => s.station_id) := by
  induction status with
  | nil => rfl
  | cons s t ih =>
    show (mergeStation info s).id ::
        (mergeStations info t).map (fun m => m.id) =
      s.station_id :: t.map (fun s => s.station_id)
    rw [ih]
    rfl

/-- A refresh that fails leaves the module state exactly as it was:
`cache = merged; cacheDate = Date.now()` is only reached after every
upstream step succeeded. -/
theorem refresh_error_state (w : World) (st : CacheState) (e : FetchErr)
    (h : (refresh w st).1 = Except.error e) : (refresh w st).2.1 = st := by
  unfold refresh at h ⊢
  cases hd : w.discovery with
  | error u => simp [hd]
  | ok root =>
    cases hfi : findFeed root.feeds "station_information" with
    | none => simp [hd, hfi]
    | some fi =>
      cases hfs : findFeed root.feeds "station_status" with
      | none => simp [hd, hfi, hfs]
      | some fs =>
        cases hii : w.infoFeedAt fi.url with
        | error u => simp [hd, hfi, hfs, hii]
        | ok info =>
          cases hss : w.statusFeedAt fs.url with
          | error u => simp [hd, hfi, hfs, hii, hss]
          | ok status => simp [hd, hfi, hfs, hii, hss] at h

/-! ## Claims -/

/-- C1 counterexample: with a populated cache whose TTL has just expired
(captured at 0, queried at 60000) and a failing discovery fetch, the
route answers with the 500 error instead of the previous snapshot's
data — an error IS raised to the caller. -/
theorem C1_counterexample :
    (stationsRoute wFail st0 none).1 = Except.error () ∧
    (stationsRoute wFail st0 none).1 ≠ Except.ok [stA] := by
  refine ⟨rfl, fun h => ?_⟩
  rw [show (stationsRoute wFail st0 none).1 = Except.error () from rfl] at h
  exact Except.noConfusion h

/-- C1 (amended): with a populated but expired cache, a failed refresh
surfaces an error to the caller (the route's 500 response); the previous
snapshot stays in the cache unchanged, but it is not served. -/
theorem C1_stale_not_served (w : World) (st : CacheState)
    (c : List MergedStation) (e : FetchErr)
    (hc : st.cache = some c)
    (hexp : ¬ (w.now - st.cacheDate < CACHE_MS))
    (hfail : (refresh w st).1 = Except.error e) :
    (stationsRoute w st none).1 = Except.error () ∧
    (stationsRoute w st none).2.1 = st := by
  have hmiss : cacheHit w st = none := by simp [cacheHit, hc, hexp]
  have hstate := refresh_error_state w st e hfail
  unfold stationsRoute fetchStations
  rw [hmiss]
  rcases hre : refresh w st with ⟨r, st2, cnt⟩
  rw [hre] at hfail hstate
  simp only at hfail hstate
  rw [hfail, hstate]
  exact ⟨rfl, rfl⟩

/-- C1 witness: the amended statement at the concrete expired-populated
fixture with a failing world. -/
theorem C1_stale_not_served_witness :
    (stationsRoute wFail st0 none).1 = Except.error () ∧
    (stationsRoute wFail st0 none).2.1 = st0 :=
  C1_stale_not_served wFail st0 [stA] FetchErr.discoveryError rfl
    (by decide) rfl

/-- C8: a refresh that fails at any step leaves the cached state
unchanged — the prior snapshot and its timestamp are not overwritten and
no partially built snapshot becomes visible — and when no prior snapshot
exists the error propagates to the route's caller as the 500 response. -/
theorem C8_failure_preserves_state (w : World) (st : CacheState)
    (e : FetchErr)
    (hfail : (fetchStations w st).1 = Except.error e) :
    (fetchStations w st).2.1 = st ∧
    (st.cache = none → (stationsRoute w st none).1 = Except.error ()) := by
  unfold stationsRoute
  unfold fetchStations at hfail ⊢
  cases hh : cacheHit w st with
  | some c =>
    rw [hh] at hfail
    dsimp only at hfail
    exact Except.noConfusion hfail
  | none =>
    rw [hh] at hfail
    dsimp only at hfail ⊢
    have hstate := refresh_error_state w st e hfail
    refine ⟨hstate, fun _ => ?_⟩
    rcases hre : refresh w st with ⟨r, st2, cnt⟩
    rw [hre] at hfail
    dsimp only at hfail
    subst hfail
    rfl

/-- C8 witness: the statement at the empty cache and the all-failing
world. -/
theorem C8_failure_preserves_state_witness :
    (fetchStations wFail stEmpty).2.1 = stEmpty ∧
    (stEmpty.cache = none →
      (stationsRoute wFail stEmpty none).1 = Except.error ()) :=
  C8_failure_preserves_state wFail stEmpty FetchErr.discoveryError rfl

/-- C9: on a cache miss, if the discovery document's feed list has no
entry named station_information or none named station_status, the refresh
fails — in the source the `find` returns `undefined` and the non-null
assertion `infoFeed!.url` / `statusFeed!.url` throws, modelled as
`feedNotFound` — no alternate name is tried and no snapshot is cached
from the attempt: the module state is unchanged. -/
theorem C9_missing_feed_fails (w : World) (st : CacheState)
    (root : Discovery)
    (hmiss : cacheHit w st = none)
    (hd : w.discovery = Except.ok root)
    (habs : findFeed root.feeds "station_information" = none ∨
            findFeed root.feeds "station_status" = none) :
    (fetchStations w st).1 = Except.error FetchErr.feedNotFound ∧
    (fetchStations w st).2.1 = st := by
  have h1 : fetchStations w st = refresh w st := by
    unfold fetchStations; rw [hmiss]
  rw [h1]
  unfold refresh
  rw [hd]
  dsimp only
  cases hfi : findFeed root.feeds "station_information" with
  | none => exact ⟨rfl, rfl⟩
  | some fi =>
    cases hfs : findFeed root.feeds "station_status" with
    | none => exact ⟨rfl, rfl⟩
    | some fs =>
      rcases habs with h | h
      · rw [hfi] at h; exact Option.noConfusion h
      · rw [hfs] at h; exact Option.noConfusion h

/-- C9 witness: the statement at the expired-populated fixture and a
discovery document listing the information feed but no status feed. -/
theorem C9_missing_feed_fails_witness :
    (fetchStations wInfoOnly st0).1 = Except.error FetchErr.feedNotFound ∧
    (fetchStations wInfoOnly st0).2.1 = st0 :=
  C9_missing_feed_fails wInfoOnly st0 ⟨[⟨"station_information", "u1"⟩]⟩
    rfl rfl (Or.inr rfl)

/-- C2 counterexample: two concurrent calls at the moment of TTL expiry,
under the event-loop schedule in which both cache checks run before
either refresh has written the cache, perform four upstream feed fetches
(two pairs), not the single pair the claim requires. -/
theorem C2_counterexample :
    twoConcurrentFeedCalls wOk st0 = 4 ∧
    twoConcurrentFeedCalls wOk st0 ≠ 2 := by
  refine ⟨rfl, ?_⟩
  rw [show twoConcurrentFeedCalls wOk st0 = 4 from rfl]
  decide

/-- C2 (amended): the source has no lock or single-flight mechanism, so
refreshes are not coalesced: every concurrent caller that observed an
expired snapshot performs its own pair of feed fetches; two concurrent
calls at TTL expiry whose discovery document resolves both feed names
perform two pairs (four feed fetches). -/
theorem C2_no_coalescing (w : World) (st : CacheState) (root : Discovery)
    (fi fs : Feed)
    (hmiss : cacheHit w st = none)
    (hd : w.discovery = Except.ok root)
    (hfi : findFeed root.feeds "station_information" = some fi)
    (hfs : findFeed root.feeds "station_status" = some fs) :
    twoConcurrentFeedCalls w st = 4 := by
  have hcount : ∀ st2 : CacheState, (refresh w st2).2.2.feedCalls = 2 := by
    intro st2
    unfold refresh
    rw [hd]
    dsimp only
    rw [hfi]
    dsimp only
    rw [hfs]
    dsimp only
    cases w.infoFeedAt fi.url <;> cases w.statusFeedAt fs.url <;> rfl
  unfold twoConcurrentFeedCalls
  rw [hmiss]
  dsimp only
  rw [hcount st, hcount ((refresh w st).2.1)]

/-- C2 witness: the amended statement at the expired-populated fixture
and the all-successful world. -/
theorem C2_no_coalescing_witness :
    twoConcurrentFeedCalls wOk st0 = 4 :=
  C2_no_coalescing wOk st0
    ⟨[⟨"station_information", "u1"⟩, ⟨"station_status", "u2"⟩]⟩
    ⟨"station_information", "u1"⟩ ⟨"station_status", "u2"⟩ rfl rfl rfl rfl

/-- C3 counterexample: a status feed repeating identifier "A" yields a
snapshot with two merged views both carrying identifier "A": identifiers
are not unique within the snapshot and no last-write-wins deduplication
happens on the status key (the snapshot keeps both rows). -/
theorem C3_counterexample :
    (mergeStations [] statusDup).map (fun m => m.id) = ["A", "A"] ∧
    ¬ ((mergeStations [] statusDup).map (fun m => m.id)).Nodup ∧
    (mergeStations [] statusDup).length = 2 := by
  refine ⟨rfl, ?_, rfl⟩
  decide

/-- C3 (amended): one merged view is produced per status record, carrying
that record's identifier in feed order, so identifiers are unique within
a snapshot exactly when the status feed's identifiers are unique;
duplicated status identifiers are preserved, not deduplicated
(last-write-wins applies only to the information-feed lookup). -/
theorem C3_ids_follow_status (info : List StationInformation)
    (status : List StationStatus)
    (h : (status.map (fun s => s.station_id)).Nodup) :
    (mergeStations info status).map (fun m => m.id) =
      status.map (fun s => s.station_id) ∧
    ((mergeStations info status).map (fun m => m.id)).Nodup := by
  have hmap := mergeStations_map_id info status
  exact ⟨hmap, hmap ▸ h⟩

/-- C3 witness: the amended statement at the concrete-scenario fixtures,
whose status identifiers are distinct. -/
theorem C3_ids_follow_status_witness :
    (statusFix.map (fun s => s.station_id)).Nodup ∧
    ((mergeStations infoFix statusFix).map (fun m => m.id) =
       statusFix.map (fun s => s.station_id) ∧
     ((mergeStations infoFix statusFix).map (fun m => m.id)).Nodup) :=
  ⟨by decide, C3_ids_follow_status infoFix statusFix (by decide)⟩

/-- C4: the join is a left join keyed on the status feed: the merged list
has exactly one entry per status record, in order (no row dropped), with
identifier and both counts copied from the status record and the
descriptive fields taken from the information lookup by identifier; when
the identifier is absent from the information feed the optional fields
are left unset and no error occurs. -/
theorem C4_left_join (info : List StationInformation)
    (status : List StationStatus) (k : Nat) (hk : k < status.length) :
    (mergeStations info status).length = status.length ∧
    (mergeStations info status).map (fun m => m.id) =
      status.map (fun s => s.station_id) ∧
    ∃ hk2 : k < (mergeStations info status).length,
      (let s := status.get ⟨k, hk⟩
       let m := (mergeStations info status).get ⟨k, hk2⟩
       m.id = s.station_id ∧
       m.bikes = s.num_bikes_available ∧
       m.docks = s.num_docks_available ∧
       m.name = (infoLookup info s.station_id).map (fun x => x.name) ∧
       m.lat = (infoLookup info s.station_id).map (fun x => x.lat) ∧
       m.lon = (infoLookup info s.station_id).map (fun x => x.lon) ∧
       m.address = (infoLookup info s.station_id).bind (fun x => x.address) ∧
       (infoLookup info s.station_id = none →
         m.name = none ∧ m.lat = none ∧ m.lon = none ∧
         m.address = none)) := by
  have hlen : (mergeStations info status).length = status.length :=
    List.length_map _ _
  refine ⟨hlen, mergeStations_map_id info status, hlen ▸ hk, ?_⟩
  have hget : (mergeStations info status).get ⟨k, hlen ▸ hk⟩ =
      mergeStation info (status.get ⟨k, hk⟩) := by
    simp [mergeStations, List.get_eq_getElem, List.getElem_map]
  rw [hget]
  refine ⟨rfl, rfl, rfl, rfl, rfl, rfl, rfl, fun hnone => ?_⟩
  rw [List.get_eq_getElem] at hnone
  simp [mergeStation, hnone]

/-- C4 witness: the statement at the concrete-scenario fixtures, at index
1 — the "B" record, which is absent from the information feed. -/
theorem C4_left_join_witness :
    1 < statusFix.length ∧
    ((mergeStations infoFix statusFix).length = statusFix.length ∧
     (mergeStations infoFix statusFix).map (fun m => m.id) =
       statusFix.map (fun s => s.station_id) ∧
     ∃ hk2 : 1 < (mergeStations infoFix statusFix).length,
       (let s := statusFix.get ⟨1, by decide⟩
        let m := (mergeStations infoFix statusFix).get ⟨1, hk2⟩
        m.id = s.station_id ∧
        m.bikes = s.num_bikes_available ∧
        m.docks = s.num_docks_available ∧
        m.name = (infoLookup infoFix s.station_id).map (fun x => x.name) ∧
        m.lat = (infoLookup infoFix s.station_id).map (fun x => x.lat) ∧
        m.lon = (infoLookup infoFix s.station_id).map (fun x => x.lon) ∧
        m.address =
          (infoLookup infoFix s.station_id).bind (fun x => x.address) ∧
        (infoLookup infoFix s.station_id = none →
          m.name = none ∧ m.lat = none ∧ m.lon = none ∧
          m.address = none))) :=
  ⟨by decide, C4_left_join infoFix statusFix 1 (by decide)⟩

/-- C5: while a snapshot exists and now - captured_at < TTL (60000 ms),
fetchStations returns the cached snapshot unchanged with zero upstream
calls, and two query(0) calls without advancing the clock return the
identical result, leave the state identical, and each perform zero
upstream fetches. -/
theorem C5_fresh_cache_no_io (w : World) (st : CacheState)
    (c : List MergedStation)
    (hc : st.cache = some c)
    (hfresh : w.now - st.cacheDate < CACHE_MS) :
    fetchStations w st = (Except.ok c, st, ⟨0, 0⟩) ∧
    stationsRoute w st none =
      (Except.ok (filterStations (JsNum.num 0) c), st, ⟨0, 0⟩) ∧
    stationsRoute w ((stationsRoute w st none).2.1) none =
      stationsRoute w st none := by
  have hhit : cacheHit w st = some c := by simp [cacheHit, hc, hfresh]
  have h1 : fetchStations w st = (Except.ok c, st, ⟨0, 0⟩) := by
    unfold fetchStations; rw [hhit]
  have h2 : stationsRoute w st none =
      (Except.ok (filterStations (JsNum.num 0) c), st, ⟨0, 0⟩) := by
    unfold stationsRoute; rw [h1]; rfl
  refine ⟨h1, h2, ?_⟩
  rw [show (stationsRoute w st none).2.1 = st from by rw [h2]]

/-- C5 witness: the statement at the populated snapshot queried 30
seconds after capture, in a world whose upstream is down — irrelevant,
since no upstream call happens. -/
theorem C5_fresh_cache_no_io_witness :
    (st0.cache = some [stA] ∧ wIdle.now - st0.cacheDate < CACHE_MS) ∧
    (fetchStations wIdle st0 = (Except.ok [stA], st0, ⟨0, 0⟩) ∧
     stationsRoute wIdle st0 none =
       (Except.ok (filterStations (JsNum.num 0) [stA]), st0, ⟨0, 0⟩) ∧
     stationsRoute wIdle ((stationsRoute wIdle st0 none).2.1) none =
       stationsRoute wIdle st0 none) :=
  ⟨⟨rfl, by decide⟩, C5_fresh_cache_no_io wIdle st0 [stA] rfl (by decide)⟩

/-- C6: query(n) returns exactly the subsequence of query(0)'s result
whose bike count — a missing count reads as 0 — is at least n, in the
snapshot's order (a filter yields a sublist: no reordering), query(0)
returns every record including those with count 0, and filtering leaves
the cached state untouched. -/
theorem C6_filter_law (w : World) (st : CacheState) (n : Int)
    (l : List MergedStation)
    (hok : (fetchStations w st).1 = Except.ok l)
    (hpos : ∀ s ∈ l, 0 ≤ s.bikes.getD 0) :
    (stationsRoute w st (some (JsNum.num n))).1 =
      Except.ok (filterStations (JsNum.num n) l) ∧
    (stationsRoute w st (some (JsNum.num 0))).1 = Except.ok l ∧
    filterStations (JsNum.num n) l =
      (filterStations (JsNum.num 0) l).filter
        (fun s => decide (n ≤ s.bikes.getD 0)) ∧
    (filterStations (JsNum.num n) l).Sublist l ∧
    (stationsRoute w st (some (JsNum.num n))).2.1 =
      (fetchStations w st).2.1 ∧
    (∀ s : MergedStation, s.bikes = none →
      jsGe (s.bikes.getD 0) (JsNum.num n) = decide (n ≤ 0)) := by
  have h0 : filterStations (JsNum.num 0) l = l := by
    apply List.filter_eq_self.mpr
    intro s hs
    simpa [jsGe] using hpos s hs
  have hroute : ∀ m : Option JsNum, stationsRoute w st m =
      (Except.ok (filterStations (m.getD (JsNum.num 0)) l),
        (fetchStations w st).2.1, (fetchStations w st).2.2) := by
    intro m
    unfold stationsRoute
    rcases hre : fetchStations w st with ⟨r, st2, cnt⟩
    rw [hre] at hok
    dsimp only at hok
    subst hok
    rfl
  refine ⟨by rw [hroute]; rfl, ?_, by rw [h0]; rfl, ?_, by rw [hroute], ?_⟩
  · rw [hroute]
    show Except.ok (filterStations (JsNum.num 0) l) = Except.ok l
    rw [h0]
  · exact List.filter_sublist l
  · intro s hsb
    rw [hsb]
    rfl

/-- C6 witness: the statement at the fresh populated snapshot with
threshold 3. -/
theorem C6_filter_law_witness :
    ((fetchStations wIdle st0).1 = Except.ok [stA] ∧
     ∀ s ∈ [stA], 0 ≤ s.bikes.getD 0) ∧
    ((stationsRoute wIdle st0 (some (JsNum.num 3))).1 =
       Except.ok (filterStations (JsNum.num 3) [stA]) ∧
     (stationsRoute wIdle st0 (some (JsNum.num 0))).1 =
       Except.ok [stA] ∧
     filterStations (JsNum.num 3) [stA] =
       (filterStations (JsNum.num 0) [stA]).filter
         (fun s => decide (3 ≤ s.bikes.getD 0)) ∧
     (filterStations (JsNum.num 3) [stA]).Sublist [stA] ∧
     (stationsRoute wIdle st0 (some (JsNum.num 3))).2.1 =
       (fetchStations wIdle st0).2.1 ∧
     (∀ s : MergedStation, s.bikes = none →
       jsGe (s.bikes.getD 0) (JsNum.num 3) = decide ((3 : Int) ≤ 0))) :=
  ⟨⟨rfl, by decide⟩,
    C6_filter_law wIdle st0 3 [stA] rfl (by decide)⟩

/-- C7: a negative threshold is never rejected and behaves exactly like
threshold 0: when the snapshot's bike counts are non-negative, query(n)
for n < 0 returns the same response as query(0); and when the caller
supplies no min parameter the threshold defaults to 0 (`Number(0)`), so
the response equals query(0)'s as well. -/
theorem C7_negative_min (w : World) (st : CacheState) (n : Int)
    (l : List MergedStation)
    (hn : n < 0)
    (hok : (fetchStations w st).1 = Except.ok l)
    (hpos : ∀ s ∈ l, 0 ≤ s.bikes.getD 0) :
    stationsRoute w st (some (JsNum.num n)) =
      stationsRoute w st (some (JsNum.num 0)) ∧
    stationsRoute w st none = stationsRoute w st (some (JsNum.num 0)) := by
  have hfn : filterStations (JsNum.num n) l = l := by
    apply List.filter_eq_self.mpr
    intro s hs
    have := hpos s hs
    simp only [jsGe, decide_eq_true_eq]
    omega
  have hf0 : filterStations (JsNum.num 0) l = l := by
    apply List.filter_eq_self.mpr
    intro s hs
    simpa [jsGe] using hpos s hs
  have hroute : ∀ m : Option JsNum, stationsRoute w st m =
      (Except.ok (filterStations (m.getD (JsNum.num 0)) l),
        (fetchStations w st).2.1, (fetchStations w st).2.2) := by
    intro m
    unfold stationsRoute
    rcases hre : fetchStations w st with ⟨r, st2, cnt⟩
    rw [hre] at hok
    dsimp only at hok
    subst hok
    rfl
  constructor
  · rw [hroute, hroute]
    dsimp only [Option.getD]
    rw [hfn, hf0]
  · rw [hroute, hroute]
    rfl

/-- C7 witness: the statement at the fresh populated snapshot with
threshold -5. -/
theorem C7_negative_min_witness :
    ((-5 : Int) < 0 ∧ (fetchStations wIdle st0).1 = Except.ok [stA] ∧
     ∀ s ∈ [stA], 0 ≤ s.bikes.getD 0) ∧
    (stationsRoute wIdle st0 (some (JsNum.num (-5))) =
       stationsRoute wIdle st0 (some (JsNum.num 0)) ∧
     stationsRoute wIdle st0 none =
       stationsRoute wIdle st0 (some (JsNum.num 0))) :=
  ⟨⟨by decide, rfl, by decide⟩,
    C7_negative_min wIdle st0 (-5) [stA] (by decide) rfl (by decide)⟩

/-- C10: when the supplied min parameter does not parse as a number —
JavaScript's `Number("abc")` is `NaN`, modelled as `JsNum.nan` — every
comparison `(bikes ?? 0) >= NaN` is false, so the route succeeds (no
rejection, no defaulting to 0) and returns the empty sequence. -/
theorem C10_nan_min (w : World) (st : CacheState)
    (l : List MergedStation)
    (hok : (fetchStations w st).1 = Except.ok l) :
    (stationsRoute w st (some JsNum.nan)).1 = Except.ok [] ∧
    ∀ s : MergedStation, jsGe (s.bikes.getD 0) JsNum.nan = false := by
  have hempty : filterStations JsNum.nan l = [] := by
    simp [filterStations, jsGe]
  have hroute : stationsRoute w st (some JsNum.nan) =
      (Except.ok (filterStations JsNum.nan l),
        (fetchStations w st).2.1, (fetchStations w st).2.2) := by
    unfold stationsRoute
    rcases hre : fetchStations w st with ⟨r, st2, cnt⟩
    rw [hre] at hok
    dsimp only at hok
    subst hok
    rfl
  refine ⟨by rw [hroute, hempty], fun s => rfl⟩

/-- C10 witness: the statement at the fresh populated snapshot, with the
non-numeric threshold. -/
theorem C10_nan_min_witness :
    (fetchStations wIdle st0).1 = Except.ok [stA] ∧
    ((stationsRoute wIdle st0 (some JsNum.nan)).1 = Except.ok [] ∧
     ∀ s : MergedStation, jsGe (s.bikes.getD 0) JsNum.nan = false) :=
  ⟨rfl, C10_nan_min wIdle st0 [stA] rfl⟩

end VLille
